import Mathlib

/-!
Verification of the zone-to-player synchronization engine of the
roon-mpris multi-zone bridge. The definitions below are a shallow
embedding of the JavaScript source: JS numbers that only ever hold
integers are modelled as `Int`, 32-bit wrapping arithmetic is made
explicit with `% 4294967296`, JS `Map` is an association list, and the
one place where the source can throw (a property access on a possibly
absent object) is an `Except`.
-/

set_option autoImplicit false

namespace RoonMpris

/-! ## Upstream data model (Roon zone snapshots) -/

/-- The compound three-field display structure of a now-playing record:
title / artist / album lines. -/
structure ThreeLine where
  line1 : String
  line2 : String
  line3 : String
  deriving DecidableEq, Repr

/-- A source control attached to an output (only the sample rate is read). -/
structure SourceControl where
  sample_rate : Option Int
  deriving DecidableEq, Repr

/-- An output of a zone (only the first source control is read). -/
structure Output where
  source_controls : List SourceControl
  deriving DecidableEq, Repr

/-- The now-playing record of a zone. `three_line` is `Option` because the
source accesses it both with and without optional chaining; the optional
quality attributes may be absent, and a JS falsy value (0 for numbers, the
empty string for strings) behaves like absence where the source tests
truthiness. -/
structure NowPlaying where
  three_line : Option ThreeLine
  length : Option Int
  seek_position : Int
  image_key : Option String
  sample_rate : Option Int
  bit_depth : Option Int
  bitrate : Option Int
  format : Option String
  media_format : Option String
  source_type : Option String
  deriving DecidableEq, Repr

/-- An upstream zone snapshot, received by value on every update. -/
structure Zone where
  zone_id : String
  display_name : String
  state : String
  is_next_allowed : Bool
  is_previous_allowed : Bool
  is_play_allowed : Bool
  is_pause_allowed : Bool
  is_seek_allowed : Bool
  now_playing : Option NowPlaying
  outputs : List Output
  deriving DecidableEq, Repr

/-! ## JS helpers: truthiness, capitalization, character classes -/

/-- JS truthiness filter for an optional number: 0 is falsy. -/
def jsTruthyInt (o : Option Int) : Option Int :=
  o.bind fun n => if n = 0 then none else some n

/-- JS truthiness filter for an optional string: the empty string is falsy. -/
def jsTruthyStr (o : Option String) : Option String :=
  o.bind fun s => if s = "" then none else some s

/-- JS `a || b` on already-truthy-filtered optionals. -/
def jsOr (a b : Option String) : Option String :=
  match a with
  | some s => some s
  | none => b

/-- JS template-literal rendering of a possibly-undefined string. -/
def jsRenderOpt (o : Option String) : String :=
  match o with
  | some s => s
  | none => "undefined"

/-- Source expression `s.charAt(0).toUpperCase() + s.slice(1)`. -/
def capitalizeJs (s : String) : String :=
  match s.data with
  | [] => ""
  | c :: rest => String.mk (c.toUpper :: rest)

/-- Membership in the character class `[A-Za-z0-9_-]` of the sanitizer. -/
def isDBusAllowed (c : Char) : Bool :=
  (65 ≤ c.toNat && c.toNat ≤ 90) ||
  (97 ≤ c.toNat && c.toNat ≤ 122) ||
  (48 ≤ c.toNat && c.toNat ≤ 57) ||
  c = '_' || c = '-'

/-- Membership in `[0-9]`, used by the `/^[0-9]/` test of the sanitizer. -/
def isAsciiDigit (c : Char) : Bool :=
  48 ≤ c.toNat && c.toNat ≤ 57

/-- The `/^[0-9]/.test(s)` check of the sanitizer. -/
def jsTestStartsDigit (s : String) : Bool :=
  match s.data with
  | [] => false
  | c :: _ => isAsciiDigit c

/-- The JS regex class `\s` (whitespace), by code point. -/
def isJsWhitespace (c : Char) : Bool :=
  let v := c.toNat
  (9 ≤ v && v ≤ 13) || v = 32 || v = 160 || v = 5760 ||
  (8192 ≤ v && v ≤ 8202) || v = 8232 || v = 8233 || v = 8239 ||
  v = 8287 || v = 12288 || v = 65279

/-! ## The regex split `line2.split(/\s+\/\s+/)` -/

/-- Try to match the separator regex at the head of the list: one or
more whitespace characters, a slash, one or more whitespace characters.
Returns the remainder after the match. Because the whitespace class does
not contain the slash, the greedy match is the only candidate. -/
def matchArtistSep (l : List Char) : Option (List Char) :=
  let ws1 := l.takeWhile isJsWhitespace
  let rest1 := l.dropWhile isJsWhitespace
  if ws1.isEmpty then none
  else
    match rest1 with
    | '/' :: rest2 =>
      let ws2 := rest2.takeWhile isJsWhitespace
      let rest3 := rest2.dropWhile isJsWhitespace
      if ws2.isEmpty then none else some rest3
    | _ => none

/-- Left-to-right scan of JS `String.prototype.split` with a regex that
never matches the empty string: cut at each leftmost non-overlapping
match. The fuel argument is initialized to the length of the string and
bounds the number of steps; every step consumes at least one character. -/
def splitScan : Nat → List Char → List Char → List (List Char)
  | 0, rem, acc => [acc.reverse ++ rem]
  | _ + 1, [], acc => [acc.reverse]
  | fuel + 1, c :: rest, acc =>
    match matchArtistSep (c :: rest) with
    | some rem => acc.reverse :: splitScan fuel rem []
    | none => splitScan fuel rest (c :: acc)

/-- Source expression `s.split` applied to the multi-artist regex. -/
def splitArtists (s : String) : List String :=
  (splitScan s.data.length s.data []).map String.mk

/-! ## Name Sanitizer -/

/-- Function `sanitizeForDBus` from the source: replace every character outside
`[A-Za-z0-9_-]` with an underscore, prepend `zone_` when the result
starts with a digit, and fall back to `unnamed_zone` when it is empty. -/
def sanitizeForDBus (displayName : String) : String :=
  let sanitized := String.mk
    (displayName.data.map fun c => if isDBusAllowed c then c else '_')
  let sanitized :=
    if jsTestStartsDigit sanitized then "zone_" ++ sanitized else sanitized
  if sanitized = "" then "unnamed_zone" else sanitized

/-! ## Track Identity Generator -/

/-- UTF-16 code units of one Unicode scalar value, as produced by JS
`charCodeAt` iteration over the string. -/
def utf16Units (c : Char) : List Nat :=
  let v := c.toNat
  if v < 65536 then [v]
  else [55296 + (v - 65536) / 1024, 56320 + (v - 65536) % 1024]

/-- The UTF-16 code-unit sequence of a string. -/
def strCharCodes (s : String) : List Nat :=
  (s.data.map utf16Units).flatten

/-- JS `ToInt32`: wrap to 32 bits and interpret as a signed value. -/
def toInt32 (n : Int) : Int :=
  let m := n % 4294967296
  if m < 2147483648 then m else m - 4294967296

/-- One step of the rolling hash of the source:
`hash = ((hash << 5) - hash) + char; hash = hash & hash;`.
The shift wraps to a signed 32-bit value, the subtraction and addition
are exact, and `hash & hash` truncates the result to a signed 32-bit
value again. -/
def hashStep (h : Int) (c : Nat) : Int :=
  toInt32 (toInt32 (h * 32) - h + (c : Int))

/-- The full rolling hash over a code-unit sequence, starting from 0. -/
def jsHash (codes : List Nat) : Int :=
  codes.foldl hashStep 0

/-- Source expression `(hash >>> 0).toString(16)`: reduce to the unsigned 32-bit magnitude
and render in minimal-width lowercase hexadecimal. -/
def hashHexStr (h : Int) : String :=
  String.mk (Nat.toDigits 16 (h % 4294967296).toNat)

/-- Modelled from the spec: the objectPath member of the player object
collaborator (the mpris-service library is outside this
repository). Per the spec the identity token is an opaque, path-safe
token scoped under the namespace of the owning player; we model the
namespace as the standard MPRIS object prefix followed by the player
name. No claim depends on the concrete prefix. -/
def objectPath (playerName subpath : String) : String :=
  "/org/mpris/MediaPlayer2/" ++ playerName ++ "/" ++ subpath

/-- Title extracted by optional chaining on line1, defaulting to empty. -/
def npTitle (np : NowPlaying) : String :=
  (np.three_line.map ThreeLine.line1).getD ""

/-- Artist extracted by optional chaining on line2, defaulting to empty. -/
def npArtist (np : NowPlaying) : String :=
  (np.three_line.map ThreeLine.line2).getD ""

/-- Album extracted by optional chaining on line3, defaulting to empty. -/
def npAlbum (np : NowPlaying) : String :=
  (np.three_line.map ThreeLine.line3).getD ""

/-- Function `generateTrackId` from the source: concatenate title, artist and
album with a `|` delimiter, hash, render the unsigned magnitude in hex,
and scope `track/<zoneId>_<hash>` under the object path of the player. -/
def generateTrackId (playerName zoneId : String) (np : NowPlaying) : String :=
  let combined := npTitle np ++ "|" ++ npArtist np ++ "|" ++ npAlbum np
  let hashStr := hashHexStr (jsHash (strCharCodes combined))
  objectPath playerName ("track/" ++ zoneId ++ "_" ++ hashStr)

/-! ## Player objects, metadata and Projection Contexts -/

/-- The MPRIS metadata mapping assigned by `updatePlayerFromZone`. The
optional fields are the conditionally-assigned `roon:` quality keys. -/
structure Metadata where
  trackid : String
  length : Int
  artUrl : String
  title : String
  album : String
  artist : List String
  sampleRate : Option Int
  bitDepth : Option Int
  bitrate : Option Int
  format : Option String
  sourceType : Option String
  outputSampleRate : Option Int
  deriving DecidableEq, Repr

/-- The outward-facing player object: its construction-time identity and
the settable properties the engine assigns. Properties not yet assigned
are `none`; `seekedEvents` records the emitted `seeked` notifications in
order, each carrying the position argument in microseconds. -/
structure PlayerState where
  name : String
  identity : String
  metadata : Option Metadata
  playbackStatus : Option String
  canGoNext : Option Bool
  canGoPrevious : Option Bool
  canPause : Option Bool
  canSeek : Option Bool
  position : Int
  seekedEvents : List Int
  deriving DecidableEq, Repr

/-- The Projection Context stored in the Zone Registry for one zone. -/
structure Context where
  player : PlayerState
  zone : Zone
  sanitizedName : String
  wsUrl : String
  lastReportedPosition : Int
  deriving DecidableEq, Repr

/-- Function `createPlayerContext` from the source: allocate a fresh player under
the namespaced sanitized name and pair it with the zone snapshot and the
connection base address. `lastReportedPosition` starts at 0. -/
def createPlayerContext (zone : Zone) (wsUrl : String) : Context :=
  let sanitizedName := "roon_" ++ sanitizeForDBus zone.display_name
  { player :=
      { name := sanitizedName
        identity := "Roon - " ++ zone.display_name
        metadata := none
        playbackStatus := none
        canGoNext := none
        canGoPrevious := none
        canPause := none
        canSeek := none
        position := 0
        seekedEvents := [] }
    zone := zone
    sanitizedName := sanitizedName
    wsUrl := wsUrl
    lastReportedPosition := 0 }

/-- The capability/status assignments at the tail of
`updatePlayerFromZone`, applied whether or not a now-playing record is
present. `canPlay` is deliberately never assigned (commented out in the
source). -/
def applyZoneFlags (player : PlayerState) (zone : Zone) : PlayerState :=
  { player with
    playbackStatus := some (capitalizeJs zone.state)
    canGoNext := some zone.is_next_allowed
    canGoPrevious := some zone.is_previous_allowed
    canPause := some zone.is_pause_allowed
    canSeek := some zone.is_seek_allowed }

/-- Function `updatePlayerFromZone` from the source. When a now-playing record is
present the metadata object literal reads `now_playing.three_line.line1`
without optional chaining, so an absent `three_line` raises a TypeError
before any property is assigned; this is the `Except.error` case. -/
def updatePlayerFromZone (ctx : Context) : Except String Context :=
  let zone := ctx.zone
  match zone.now_playing with
  | some np =>
    let trackId := generateTrackId ctx.player.name zone.zone_id np
    match np.three_line with
    | none => .error "TypeError: cannot read line1 of undefined three_line"
    | some tl =>
      let md : Metadata :=
        { trackid := trackId
          length := match np.length with
            | some n => if n = 0 then 0 else n * 1000000
            | none => 0
          artUrl := "http://" ++ ctx.wsUrl ++ "/image/" ++ jsRenderOpt np.image_key
          title := tl.line1
          album := tl.line3
          artist := splitArtists tl.line2
          sampleRate := jsTruthyInt np.sample_rate
          bitDepth := jsTruthyInt np.bit_depth
          bitrate := jsTruthyInt np.bitrate
          format := jsOr (jsTruthyStr np.format) (jsTruthyStr np.media_format)
          sourceType := jsTruthyStr np.source_type
          outputSampleRate :=
            match zone.outputs.head? with
            | some out =>
              match out.source_controls.head? with
              | some src => jsTruthyInt src.sample_rate
              | none => none
            | none => none }
      let player := { ctx.player with metadata := some md }
      .ok { ctx with player := applyZoneFlags player zone }
  | none => .ok { ctx with player := applyZoneFlags ctx.player zone }

/-! ## Zone Registry (the JS `Map` keyed by zone identifier) -/

/-- The registry `zonePlayerMap`: an association list in insertion
order, mirroring a JS `Map`. -/
abbrev Registry := List (String × Context)

/-- JS `Map.has`. -/
def hasKey (reg : Registry) (k : String) : Bool :=
  reg.any fun p => p.1 = k

/-- JS `Map.get`: first binding for the key. -/
def lookupKey (reg : Registry) (k : String) : Option Context :=
  (reg.find? fun p => p.1 = k).map Prod.snd

/-- JS `Map.set`: update an existing binding in place, else append. -/
def setKey (reg : Registry) (k : String) (v : Context) : Registry :=
  if hasKey reg k then reg.map fun p => if p.1 = k then (k, v) else p
  else reg ++ [(k, v)]

/-- JS `Map.delete`: remove the bindings for the key. -/
def deleteKey (reg : Registry) (k : String) : Registry :=
  reg.filter fun p => ¬ (p.1 = k)

/-- Number of bindings for one key (1 or 0 on reachable registries). -/
def countKey (reg : Registry) (k : String) : Nat :=
  (reg.filter fun p => p.1 = k).length

/-! ## Projection Engine: the subscribe_zones event branches -/

/-- The zones-added branch: for each zone not already in the registry,
create a context, store it, and immediately project full state onto the
new player. The source mutates the stored context in place, so on a
projection error the freshly created (not yet updated) context remains
stored and the thrown error aborts the rest of the batch. -/
def addZones (reg : Registry) (wsUrl : String) :
    List Zone → Registry × Option String
  | [] => (reg, none)
  | zone :: rest =>
    if hasKey reg zone.zone_id then addZones reg wsUrl rest
    else
      let ctx := createPlayerContext zone wsUrl
      match updatePlayerFromZone ctx with
      | .ok ctx2 => addZones (setKey reg zone.zone_id ctx2) wsUrl rest
      | .error e => (setKey reg zone.zone_id ctx, some e)

/-- The zones-removed branch: for each known identifier, detach the
player (an external D-Bus effect with no registry-visible state) and
delete the binding; unknown identifiers are skipped. -/
def removeZones (reg : Registry) (ids : List String) : Registry :=
  ids.foldl (fun r id => if hasKey r id then deleteKey r id else r) reg

/-- One entry of a zones-seek-changed batch. -/
structure SeekChange where
  zone_id : String
  seek_position : Int
  deriving DecidableEq, Repr

/-- The Seek/Progress Classifier applied to one seek-changed entry: for
a known zone, convert the reported position to microseconds, compare it
with the expected position (last reported + 1.5 s), classify as a seek
when the deviation exceeds 2 s, always store the new position and push
it to the player, and emit `seeked` exactly on a classified seek. -/
def applySeekChange (reg : Registry) (change : SeekChange) : Registry :=
  match lookupKey reg change.zone_id with
  | none => reg
  | some ctx =>
    let positionMicro := change.seek_position * 1000000
    let expectedPosition := ctx.lastReportedPosition + 1500000
    let positionDelta := (positionMicro - expectedPosition).natAbs
    let isSeek := positionDelta > 2000000
    let player := ctx.player
    let player :=
      { player with
        position := positionMicro
        seekedEvents :=
          if isSeek then player.seekedEvents ++ [positionMicro]
          else player.seekedEvents }
    setKey reg change.zone_id
      { ctx with lastReportedPosition := positionMicro, player := player }

/-- The zones-seek-changed branch over a whole batch. -/
def handleZonesSeekChanged (reg : Registry) (changes : List SeekChange) : Registry :=
  changes.foldl applySeekChange reg

/-! ## Command Router: inbound seek events -/

/-- An upstream seek invocation (zone, mode, amount in seconds). -/
structure UpstreamSeek where
  zoneId : String
  mode : String
  seconds : Rat
  deriving DecidableEq, Repr

/-- The `seek` (relative) event handler, together with its completion
callback: returns the upstream call issued (if any) and the list of
`seeked` notifications emitted (position arguments in microseconds, as
exact rationals). `coreOk` is the `core` nullness check and
`callSucceeds` selects the branch taken by the completion callback. -/
def seekEvent (reg : Registry) (coreOk : Bool) (zoneId : String)
    (offset : Int) (callSucceeds : Bool) : Option UpstreamSeek × List Rat :=
  match lookupKey reg zoneId with
  | none => (none, [])
  | some ctx =>
    if coreOk = false then (none, [])
    else if ctx.zone.is_seek_allowed = false then (none, [])
    else
      let offsetSeconds : Rat := (offset : Rat) / 1000000
      let call : UpstreamSeek :=
        { zoneId := zoneId, mode := "relative", seconds := offsetSeconds }
      if callSucceeds then
        let currentPos : Rat :=
          match ctx.zone.now_playing with
          | some np => if np.seek_position = 0 then 0 else (np.seek_position : Rat)
          | none => 0
        let newPosSeconds := max 0 (currentPos + offsetSeconds)
        (some call, [newPosSeconds * 1000000])
      else (some call, [])

/-- The `position` (absolute) event handler with its completion
callback, analogous to `seekEvent`. -/
def positionEvent (reg : Registry) (coreOk : Bool) (zoneId : String)
    (posMicros : Int) (callSucceeds : Bool) : Option UpstreamSeek × List Rat :=
  match lookupKey reg zoneId with
  | none => (none, [])
  | some ctx =>
    if coreOk = false then (none, [])
    else if ctx.zone.is_seek_allowed = false then (none, [])
    else
      let positionSeconds : Rat := (posMicros : Rat) / 1000000
      let call : UpstreamSeek :=
        { zoneId := zoneId, mode := "absolute", seconds := positionSeconds }
      if callSucceeds then (some call, [(posMicros : Rat)])
      else (some call, [])

/-- The position getter installed by `setupPlayerEvents`: 0 when the
zone is unknown or has no now-playing record, else the seek position in
seconds scaled to microseconds. A total function, mirroring the guarded
accesses of the source. -/
def getPosition (reg : Registry) (zoneId : String) : Int :=
  match lookupKey reg zoneId with
  | some ctx =>
    match ctx.zone.now_playing with
    | some np => np.seek_position * 1000 * 1000
    | none => 0
  | none => 0



/-! ## Concrete fixtures used by claim theorems, witnesses and counterexamples -/

def zoneC2 : Zone :=
  { zone_id := "z1", display_name := "Living Room", state := "playing"
    is_next_allowed := true, is_previous_allowed := true, is_play_allowed := true
    is_pause_allowed := true, is_seek_allowed := true
    now_playing := some
      { three_line := some
          { line1 := "Song", line2 := "Artist A / Artist B", line3 := "Album" }
        length := some 200, seek_position := 10, image_key := some "img1"
        sample_rate := none, bit_depth := none, bitrate := none
        format := none, media_format := none, source_type := none }
    outputs := [] }

def ctxSeekDemo : Context :=
  { createPlayerContext zoneC2 "192.168.1.5:9100" with lastReportedPosition := 10000000 }

def regSeekDemo : Registry := [("z1", ctxSeekDemo)]


def npSong : NowPlaying :=
  { three_line := some
      { line1 := "Song", line2 := "Artist A / Artist B", line3 := "Album" }
    length := some 200, seek_position := 10, image_key := some "img1"
    sample_rate := none, bit_depth := none, bitrate := none
    format := none, media_format := none, source_type := none }

def npEmptyLines : NowPlaying :=
  { npSong with three_line := some { line1 := "", line2 := "", line3 := "" } }

def npC5a : NowPlaying :=
  { npSong with three_line := some { line1 := "Track", line2 := "Artist", line3 := "Album" } }

def npC5b : NowPlaying := { npC5a with length := some 250, seek_position := 60 }

def np45 : NowPlaying :=
  { npSong with seek_position := 45 }

def zone45 : Zone :=
  { zone_id := "z45", display_name := "Den", state := "playing"
    is_next_allowed := true, is_previous_allowed := true, is_play_allowed := true
    is_pause_allowed := true, is_seek_allowed := true
    now_playing := some np45, outputs := [] }

def ctx45 : Context := createPlayerContext zone45 "w"

def reg45 : Registry := [("z45", ctx45)]

def zoneNoThreeLine : Zone :=
  { zone45 with zone_id := "zx", now_playing := some { np45 with three_line := none } }

def ctxNoThreeLine : Context := createPlayerContext zoneNoThreeLine "w"

def zoneNoSeek : Zone := { zone45 with zone_id := "zs", is_seek_allowed := false }

def ctxNoSeek : Context := createPlayerContext zoneNoSeek "w"

def regNoSeek : Registry := [("zs", ctxNoSeek)]

/-- Modelled from the spec: the Track Identity Generator algorithm in the
words of the spec, for refinement comparison. The 32-bit order-dependent
rolling hash multiply-and-add step is h * 31 + code, truncated to 32 bits
and kept as its unsigned magnitude throughout. -/
def specHashStep (h : Int) (c : Nat) : Int :=
  (h * 31 + (c : Int)) % 4294967296

/-- Modelled from the spec: the full rolling hash over the code units,
starting from 0 and staying an unsigned 32-bit magnitude throughout. -/
def specRollingHash (codes : List Nat) : Int :=
  codes.foldl specHashStep 0

/-- Modelled from the spec: concatenate the three fields with a
delimiter, hash, render in hexadecimal (minimal width, no padding), and
combine with the zone identifier under the player namespace. -/
def specTrackId (playerName zoneId title artist album : String) : String :=
  objectPath playerName ("track/" ++ zoneId ++ "_" ++
    String.mk (Nat.toDigits 16 (specRollingHash
      (strCharCodes (title ++ "|" ++ artist ++ "|" ++ album))).toNat))


/-! ## Helper lemmas -/

theorem lookupKey_map_set (reg : Registry) (k : String) (v : Context)
    (h : hasKey reg k = true) :
    lookupKey (reg.map fun p => if p.1 = k then (k, v) else p) k = some v := by
  induction reg with
  | nil => simp [hasKey] at h
  | cons p t ih =>
    by_cases hp : p.1 = k
    · simp [lookupKey, List.find?, hp]
    · have ht : hasKey t k = true := by
        simp [hasKey, List.any_cons, hp] at h
        simpa [hasKey] using h
      simpa [lookupKey, List.find?, hp] using ih ht

theorem lookupKey_append_single (reg : Registry) (k : String) (v : Context)
    (h : hasKey reg k = false) :
    lookupKey (reg ++ [(k, v)]) k = some v := by
  induction reg with
  | nil => simp [lookupKey, List.find?]
  | cons p t ih =>
    have hp : ¬ (p.1 = k) := by
      intro he
      simp [hasKey, List.any_cons, he] at h
    have ht : hasKey t k = false := by
      simp [hasKey, List.any_cons, hp] at h
      simpa [hasKey] using h
    simpa [lookupKey, List.find?, hp] using ih ht

theorem lookupKey_setKey_self (reg : Registry) (k : String) (v : Context) :
    lookupKey (setKey reg k v) k = some v := by
  unfold setKey
  by_cases h : hasKey reg k = true
  · rw [if_pos h]
    exact lookupKey_map_set reg k v h
  · rw [if_neg h]
    exact lookupKey_append_single reg k v (by simpa using h)

theorem hasKey_setKey_self (reg : Registry) (k : String) (v : Context) :
    hasKey (setKey reg k v) k = true := by
  have h := lookupKey_setKey_self reg k v
  unfold lookupKey at h
  rcases hf : List.find? (fun p => p.1 = k) (setKey reg k v) with _ | q
  · rw [hf] at h; simp at h
  · have := List.find?_some hf
    unfold hasKey
    rw [List.any_eq_true]
    exact ⟨q, List.mem_of_find?_eq_some hf, this⟩

theorem hasKey_false_of_countKey_zero (reg : Registry) (k : String)
    (h : countKey reg k = 0) : hasKey reg k = false := by
  unfold countKey at h
  rw [List.length_eq_zero, List.filter_eq_nil_iff] at h
  unfold hasKey
  rw [List.any_eq_false]
  intro p hp
  exact h p hp

theorem countKey_setKey_new (reg : Registry) (k : String) (v : Context)
    (h : hasKey reg k = false) : countKey (setKey reg k v) k = 1 := by
  unfold setKey
  rw [if_neg (by simp [h])]
  unfold countKey
  rw [List.filter_append]
  have h0 : (reg.filter fun p => p.1 = k) = [] := by
    rw [List.filter_eq_nil_iff]
    intro p hp hpk
    unfold hasKey at h
    rw [List.any_eq_false] at h
    exact absurd hpk (h p hp)
  simp [h0]

theorem string_ne_empty_of_data_ne (s : String) (h : s.data ≠ []) : s ≠ "" := by
  intro he
  apply h
  rw [he]

theorem toInt32_emod (n : Int) : toInt32 n % 4294967296 = n % 4294967296 := by
  show (if n % 4294967296 < 2147483648 then n % 4294967296
        else n % 4294967296 - 4294967296) % 4294967296 = n % 4294967296
  split <;> omega

theorem hashStep_emod (h : Int) (c : Nat) :
    hashStep h c % 4294967296 = (h % 4294967296 * 31 + (c : Int)) % 4294967296 := by
  unfold hashStep
  rw [toInt32_emod]
  have h32 := toInt32_emod (h * 32)
  omega

theorem foldl_hashStep_emod (l : List Nat) : ∀ h : Int,
    (l.foldl hashStep h) % 4294967296 =
    l.foldl specHashStep (h % 4294967296) := by
  induction l with
  | nil => intro h; rfl
  | cons c t ih =>
    intro h
    simp only [List.foldl_cons]
    rw [ih (hashStep h c), hashStep_emod]
    rfl

theorem jsHash_emod (l : List Nat) :
    jsHash l % 4294967296 = specRollingHash l := by
  unfold jsHash specRollingHash
  rw [foldl_hashStep_emod]
  norm_num


/-! ## Claim theorems -/

/-- C1: for every seek-changed entry whose zone is in the registry, the
classifier computes expected = lastReportedPosition + 1500000 and
delta = abs(newPositionMicros - expected), classifies as a seek exactly
when delta > 2000000, always stores the new position and pushes it to
the player, and emits a seeked notification exactly on a classified
seek; with lastReportedPosition = 10000000, a report of 11 s (11000000
microseconds) is ordinary progress and a report of 30 s is a seek. -/
theorem seekChanged_classifier (reg : Registry) (change : SeekChange) (ctx : Context)
    (h : lookupKey reg change.zone_id = some ctx) :
    (∃ ctx2,
       lookupKey (applySeekChange reg change) change.zone_id = some ctx2 ∧
       ctx2.lastReportedPosition = change.seek_position * 1000000 ∧
       ctx2.player.position = change.seek_position * 1000000 ∧
       ctx2.player.seekedEvents =
         (if (change.seek_position * 1000000 - (ctx.lastReportedPosition + 1500000)).natAbs > 2000000
          then ctx.player.seekedEvents ++ [change.seek_position * 1000000]
          else ctx.player.seekedEvents)) ∧
    ((lookupKey (applySeekChange regSeekDemo { zone_id := "z1", seek_position := 11 }) "z1").map
        (fun c => c.player.seekedEvents) = some [] ∧
     (lookupKey (applySeekChange regSeekDemo { zone_id := "z1", seek_position := 30 }) "z1").map
        (fun c => c.player.seekedEvents) = some [30000000]) := by
  refine ⟨?_, by decide, by decide⟩
  unfold applySeekChange
  rw [h]
  exact ⟨_, lookupKey_setKey_self _ _ _, rfl, rfl, rfl⟩

/-- C3: for every display name the sanitizer output is non-empty, drawn
from the restricted alphabet, and never begins with a digit; it is a
total function. -/
theorem sanitizeForDBus_valid (s : String) :
    sanitizeForDBus s ≠ "" ∧
    (sanitizeForDBus s).data.all isDBusAllowed = true ∧
    jsTestStartsDigit (sanitizeForDBus s) = false := by
  have hall : ∀ t : List Char,
      (t.map fun c => if isDBusAllowed c then c else '_').all isDBusAllowed = true := by
    intro t
    rw [List.all_eq_true]
    intro c hc
    rcases List.mem_map.mp hc with ⟨a, _, rfl⟩
    by_cases hA : isDBusAllowed a = true
    · rw [if_pos hA]; exact hA
    · rw [if_neg hA]; decide
  simp only [sanitizeForDBus]
  set cleaned := String.mk (s.data.map fun c => if isDBusAllowed c then c else '_') with hcl
  have hcall : cleaned.data.all isDBusAllowed = true := by
    rw [hcl]
    exact hall s.data
  by_cases hd : jsTestStartsDigit cleaned = true
  · rw [if_pos hd]
    have hdata : ("zone_" ++ cleaned).data = 'z' :: 'o' :: 'n' :: 'e' :: '_' :: cleaned.data := by
      rw [String.data_append]
      rfl
    have hne : ("zone_" ++ cleaned) ≠ "" :=
      string_ne_empty_of_data_ne _ (by rw [hdata]; simp)
    rw [if_neg hne]
    refine ⟨hne, ?_, ?_⟩
    · rw [hdata]
      simp only [List.all_cons, hcall]
      decide
    · unfold jsTestStartsDigit
      rw [hdata]
      rfl
  · rw [if_neg hd]
    by_cases he : cleaned = ""
    · rw [if_pos he]
      exact ⟨by decide, by decide, by decide⟩
    · rw [if_neg he]
      exact ⟨he, hcall, by simpa using hd⟩

/-- C5: the Track Identity Generator is a pure function of the zone
identifier and the title, artist and album lines: any two now-playing
records agreeing on those three fields generate the same token, with no
dependence on any other field or hidden state. -/
theorem generateTrackId_pure (playerName zoneId : String) (np1 np2 : NowPlaying)
    (h1 : npTitle np1 = npTitle np2) (h2 : npArtist np1 = npArtist np2)
    (h3 : npAlbum np1 = npAlbum np2) :
    generateTrackId playerName zoneId np1 = generateTrackId playerName zoneId np2 := by
  unfold generateTrackId
  rw [h1, h2, h3]

theorem generateTrackId_pure_witness :
    npTitle npC5a = npTitle npC5b ∧ npArtist npC5a = npArtist npC5b ∧
    npAlbum npC5a = npAlbum npC5b ∧ npC5a ≠ npC5b ∧
    generateTrackId "roon_A" "z9" npC5a = generateTrackId "roon_A" "z9" npC5b :=
  ⟨rfl, rfl, rfl, by decide,
   generateTrackId_pure "roon_A" "z9" npC5a npC5b rfl rfl rfl⟩

set_option maxRecDepth 4000 in
/-- C6 counterexample: the hexadecimal rendering of the hash is not
fixed-width; two tracks yield identity tokens of different lengths. -/
theorem trackId_not_fixed_width :
    (generateTrackId "p" "z" npEmptyLines).length ≠
    (generateTrackId "p" "z" npSong).length := by decide

/-- C6 amended: the generator concatenates title, artist and album with
a delimiter, computes the 32-bit order-dependent rolling hash
h * 31 + code truncated to 32 bits and reduced to its unsigned
magnitude, renders it in minimal-width (unpadded) lowercase hexadecimal,
and combines it with the zone identifier under the player namespace. -/
theorem generateTrackId_algorithm (playerName zoneId : String) (np : NowPlaying) :
    generateTrackId playerName zoneId np =
    specTrackId playerName zoneId (npTitle np) (npArtist np) (npAlbum np) := by
  simp only [generateTrackId, specTrackId, hashHexStr]
  rw [jsHash_emod]

/-- C9: removing an unknown zone identifier is a no-op: the registry and
every remaining context and player are unchanged, and no error arises. -/
theorem removeZones_unknown_noop (reg : Registry) (id : String)
    (h : hasKey reg id = false) :
    removeZones reg [id] = reg := by
  unfold removeZones
  simp [h]

theorem removeZones_unknown_noop_witness :
    hasKey reg45 "nope" = false ∧ removeZones reg45 ["nope"] = reg45 :=
  ⟨by decide, removeZones_unknown_noop reg45 "nope" (by decide)⟩

/-- C10: the position getter returns 0 when the zone is unknown or has
no now-playing record, and otherwise the seek position scaled to
microseconds; it is a total function (never throws). -/
theorem getPosition_spec (reg : Registry) (zoneId : String) :
    (lookupKey reg zoneId = none → getPosition reg zoneId = 0) ∧
    (∀ ctx, lookupKey reg zoneId = some ctx → ctx.zone.now_playing = none →
       getPosition reg zoneId = 0) ∧
    (∀ ctx np, lookupKey reg zoneId = some ctx → ctx.zone.now_playing = some np →
       getPosition reg zoneId = np.seek_position * 1000 * 1000) := by
  refine ⟨?_, ?_, ?_⟩
  · intro h; simp only [getPosition, h]
  · intro ctx h hnp; simp only [getPosition, h, hnp]
  · intro ctx np h hnp; simp only [getPosition, h, hnp]

theorem getPosition_spec_witness :
    lookupKey reg45 "z45" = some ctx45 ∧
    ctx45.zone.now_playing = some np45 ∧
    getPosition reg45 "z45" = 45000000 ∧
    lookupKey reg45 "nope" = none ∧
    getPosition reg45 "nope" = 0 := by
  refine ⟨rfl, rfl, ?_, by decide, (getPosition_spec reg45 "nope").1 (by decide)⟩
  exact ((getPosition_spec reg45 "z45").2.2 ctx45 np45 rfl rfl).trans (by decide)


set_option maxRecDepth 4000 in
/-- C2: end-to-end projection of the Living Room zone: creating its
player from an empty registry raises no error and yields the artist list
split on the multi-artist delimiter, the duration in microseconds, the
artwork URL built from the connection base address and image key, and
the identifier roon_Living_Room. -/
theorem endToEnd_projection :
    (addZones [] "192.168.1.5:9100" [zoneC2]).2 = none ∧
    ((lookupKey (addZones [] "192.168.1.5:9100" [zoneC2]).1 "z1").map fun c =>
        (c.player.name, c.sanitizedName,
         c.player.metadata.map fun m => (m.artist, m.length, m.artUrl))) =
      some ("roon_Living_Room", "roon_Living_Room",
            some (["Artist A", "Artist B"], 200000000,
                  "http://192.168.1.5:9100/image/img1")) := by
  exact ⟨rfl, by decide⟩

/-- C4 counterexample: a zone whose now-playing record is present but
lacks the three-field display structure makes full-state projection
raise an error. -/
theorem projection_missing_three_line_throws :
    (updatePlayerFromZone ctxNoThreeLine).isOk = false := by decide

/-- C4 amended: full-state projection raises no error when the zone has
no now-playing record at all, or when the record carries its three-field
display structure (absent optional quality fields are simply omitted);
but when the record is present with the three-field structure absent,
projection raises an error. -/
theorem projection_total_amended (ctx : Context)
    (h : ctx.zone.now_playing = none ∨
         ∃ np, ctx.zone.now_playing = some np ∧ np.three_line ≠ none) :
    (updatePlayerFromZone ctx).isOk = true := by
  rcases h with h | ⟨np, hnp, htl⟩
  · simp only [updatePlayerFromZone, h]
    rfl
  · simp only [updatePlayerFromZone, hnp]
    cases htl2 : np.three_line with
    | none => exact absurd htl2 htl
    | some tl => rfl

theorem projection_total_amended_witness :
    (ctx45.zone.now_playing = none ∨
     ∃ np, ctx45.zone.now_playing = some np ∧ np.three_line ≠ none) ∧
    (updatePlayerFromZone ctx45).isOk = true :=
  ⟨Or.inr ⟨np45, rfl, by decide⟩,
   projection_total_amended ctx45 (Or.inr ⟨np45, rfl, by decide⟩)⟩

/-- C7: adding an already-known zone identifier is a no-op: after a
first successful or failed add of a fresh zone, a second add of the same
zone changes nothing and exactly one Projection Context (hence one
player object) exists for that identifier. -/
theorem addZones_idempotent (reg : Registry) (ws : String) (z : Zone)
    (h : countKey reg z.zone_id = 0) :
    addZones (addZones reg ws [z]).1 ws [z] = ((addZones reg ws [z]).1, none) ∧
    countKey (addZones reg ws [z]).1 z.zone_id = 1 := by
  have hk : hasKey reg z.zone_id = false := hasKey_false_of_countKey_zero reg z.zone_id h
  cases hup : updatePlayerFromZone (createPlayerContext z ws) with
  | error e =>
    have h1 : addZones reg ws [z] =
        (setKey reg z.zone_id (createPlayerContext z ws), some e) := by
      simp only [addZones, hk, Bool.false_eq_true, if_false, hup]
    rw [h1]
    refine ⟨?_, countKey_setKey_new reg z.zone_id _ hk⟩
    simp only [addZones, hasKey_setKey_self, if_true]
  | ok c2 =>
    have h1 : addZones reg ws [z] = (setKey reg z.zone_id c2, none) := by
      simp only [addZones, hk, Bool.false_eq_true, if_false, hup]
    rw [h1]
    refine ⟨?_, countKey_setKey_new reg z.zone_id _ hk⟩
    simp only [addZones, hasKey_setKey_self, if_true]

theorem addZones_idempotent_witness :
    countKey [] zoneC2.zone_id = 0 ∧
    (addZones (addZones [] "w" [zoneC2]).1 "w" [zoneC2] =
       ((addZones [] "w" [zoneC2]).1, none) ∧
     countKey (addZones [] "w" [zoneC2]).1 zoneC2.zone_id = 1) :=
  ⟨rfl, addZones_idempotent [] "w" zoneC2 rfl⟩

/-- C8: an inbound relative-seek or set-position event for a zone whose
snapshot has seeking disallowed issues no upstream seek call and emits
no seeked notification. -/
theorem seekDisallowed_dropped (reg : Registry) (coreOk : Bool) (zoneId : String)
    (offset posMicros : Int) (succ1 succ2 : Bool) (ctx : Context)
    (hctx : lookupKey reg zoneId = some ctx)
    (hsa : ctx.zone.is_seek_allowed = false) :
    seekEvent reg coreOk zoneId offset succ1 = (none, []) ∧
    positionEvent reg coreOk zoneId posMicros succ2 = (none, []) := by
  constructor
  · simp only [seekEvent, hctx]
    by_cases hc : coreOk = false
    · rw [if_pos hc]
    · rw [if_neg hc, if_pos hsa]
  · simp only [positionEvent, hctx]
    by_cases hc : coreOk = false
    · rw [if_pos hc]
    · rw [if_neg hc, if_pos hsa]

theorem seekDisallowed_dropped_witness :
    lookupKey regNoSeek "zs" = some ctxNoSeek ∧
    ctxNoSeek.zone.is_seek_allowed = false ∧
    (seekEvent regNoSeek true "zs" 5000000 true = (none, []) ∧
     positionEvent regNoSeek true "zs" 120000000 true = (none, [])) :=
  ⟨rfl, rfl,
   seekDisallowed_dropped regNoSeek true "zs" 5000000 120000000 true true
     ctxNoSeek rfl rfl⟩

theorem seekChanged_classifier_witness :
    lookupKey regSeekDemo "z1" = some ctxSeekDemo ∧
    ((∃ ctx2,
       lookupKey (applySeekChange regSeekDemo { zone_id := "z1", seek_position := 11 }) "z1" = some ctx2 ∧
       ctx2.lastReportedPosition = 11 * 1000000 ∧
       ctx2.player.position = 11 * 1000000 ∧
       ctx2.player.seekedEvents =
         (if (11 * 1000000 - (ctxSeekDemo.lastReportedPosition + 1500000)).natAbs > 2000000
          then ctxSeekDemo.player.seekedEvents ++ [11 * 1000000]
          else ctxSeekDemo.player.seekedEvents)) ∧
     ((lookupKey (applySeekChange regSeekDemo { zone_id := "z1", seek_position := 11 }) "z1").map
         (fun c => c.player.seekedEvents) = some [] ∧
      (lookupKey (applySeekChange regSeekDemo { zone_id := "z1", seek_position := 30 }) "z1").map
         (fun c => c.player.seekedEvents) = some [30000000])) :=
  ⟨rfl,
   seekChanged_classifier regSeekDemo { zone_id := "z1", seek_position := 11 }
     ctxSeekDemo rfl⟩


end RoonMpris
